import Mathlib

/-!
Shallow embedding of the Busary_form client-side form logic.

The JavaScript sources embedded here are:
  src/static/app.js        (current revision: validation, navigation, visibility)
  src/staticfiles/app.js   (same functions, first document of the file)
  src/app.js               (early revision)
  src/unnamed/part_000     (intermediate revision)

Numbers parsed with parseFloat are modelled as rationals; the interactive
confirm() dialogs are modelled as boolean inputs saying whether the user
accepts each confirmation.
-/

namespace BusaryForm

/-- The blocking rules of validateFinancialFields; each constructor stands for
the distinct showError message issued when that rule fires
(src/static/app.js lines 285-301). -/
inductive FinRule
  | tuitionNotPositive
  | amountNotPositive
  | amountExceedsTuition
deriving DecidableEq, Repr

/-- The two interactive confirmations of validateFinancialFields
(src/static/app.js lines 303-315). -/
inductive FinConfirm
  | lowAmount
  | highIncome
deriving DecidableEq, Repr

/-- Outcome of validateFinancialFields: ok models a true return, blocked models
showError plus a false return, declined models a confirm() the user refused
followed by a false return. -/
inductive FinResult
  | ok
  | blocked (r : FinRule)
  | declined (c : FinConfirm)
deriving DecidableEq, Repr

/-- The showError text for each blocking rule of validateFinancialFields
(the source interpolates the concrete amounts into these messages). -/
def finRuleMessage : FinRule → String
  | FinRule.tuitionNotPositive => "Tuition fee must be greater than zero."
  | FinRule.amountNotPositive => "Amount requested must be greater than zero."
  | FinRule.amountExceedsTuition => "Amount requested cannot exceed tuition fee."

/-- Tail of validateFinancialFields: the high-income plausibility check
(src/static/app.js lines 310-315).  confirmHighIncome is the answer the user
gives to the confirm() dialog. -/
def incomeCheck (annualIncome tuitionFee : ℚ) (confirmHighIncome : Bool) : FinResult :=
  if annualIncome > tuitionFee * 10 then
    if confirmHighIncome then FinResult.ok else FinResult.declined FinConfirm.highIncome
  else FinResult.ok

/-- validateFinancialFields from src/static/app.js lines 280-318 (identical in
src/staticfiles/app.js lines 230-268).  The three arguments are the parseFloat
values of annual_family_income, tuition_fee and amount_requested; an empty
field parses to 0.  The JS literal 0.1 is the rational 1/10 here. -/
def validateFinancialFields (annualIncome tuitionFee amountRequested : ℚ)
    (confirmLowAmount confirmHighIncome : Bool) : FinResult :=
  if tuitionFee ≤ 0 then FinResult.blocked FinRule.tuitionNotPositive
  else if amountRequested ≤ 0 then FinResult.blocked FinRule.amountNotPositive
  else if amountRequested > tuitionFee then FinResult.blocked FinRule.amountExceedsTuition
  else if amountRequested < tuitionFee * (1 / 10) then
    if confirmLowAmount then incomeCheck annualIncome tuitionFee confirmHighIncome
    else FinResult.declined FinConfirm.lowAmount
  else incomeCheck annualIncome tuitionFee confirmHighIncome

/-- Claim C1: whenever amount_requested exceeds tuition_fee the financial
validation returns a blocking failure; when additionally tuition_fee is
positive the failure carries the rule-specific amount-exceeds-tuition message;
and when amount_requested equals tuition_fee while the remaining financial
checks pass (positive tuition, income at most ten times tuition) the
validation succeeds. -/
theorem C1_amount_vs_tuition (annualIncome tuitionFee amountRequested : ℚ)
    (confirmLowAmount confirmHighIncome : Bool) :
    (tuitionFee < amountRequested →
      ∃ r, validateFinancialFields annualIncome tuitionFee amountRequested
        confirmLowAmount confirmHighIncome = FinResult.blocked r) ∧
    (0 < tuitionFee → tuitionFee < amountRequested →
      validateFinancialFields annualIncome tuitionFee amountRequested
        confirmLowAmount confirmHighIncome = FinResult.blocked FinRule.amountExceedsTuition) ∧
    (amountRequested = tuitionFee → 0 < tuitionFee → annualIncome ≤ tuitionFee * 10 →
      validateFinancialFields annualIncome tuitionFee amountRequested
        confirmLowAmount confirmHighIncome = FinResult.ok) := by
  refine ⟨?_, ?_, ?_⟩
  · intro hlt
    by_cases h1 : tuitionFee ≤ 0
    · exact ⟨FinRule.tuitionNotPositive, by unfold validateFinancialFields; rw [if_pos h1]⟩
    · push_neg at h1
      refine ⟨FinRule.amountExceedsTuition, ?_⟩
      unfold validateFinancialFields
      rw [if_neg (by push_neg; linarith), if_neg (by push_neg; linarith), if_pos hlt]
  · intro ht hlt
    unfold validateFinancialFields
    rw [if_neg (by push_neg; linarith), if_neg (by push_neg; linarith), if_pos hlt]
  · intro heq ht hinc
    unfold validateFinancialFields incomeCheck
    rw [if_neg (by push_neg; linarith), if_neg (by push_neg; linarith),
      if_neg (by push_neg; linarith), if_neg (by push_neg; linarith),
      if_neg (by push_neg; linarith)]

/-- Concrete instantiation of C1: amount 15000 exceeds tuition 10000 and is
blocked with the amount-exceeds rule, and amount 10000 equal to tuition 10000
passes. -/
theorem C1_amount_vs_tuition_witness :
    validateFinancialFields 50000 10000 15000 false false
      = FinResult.blocked FinRule.amountExceedsTuition ∧
    validateFinancialFields 50000 10000 10000 false false = FinResult.ok := by
  constructor
  · exact (C1_amount_vs_tuition 50000 10000 15000 false false).2.1 (by norm_num) (by norm_num)
  · exact (C1_amount_vs_tuition 50000 10000 10000 false false).2.2 rfl (by norm_num)
      (by norm_num)

/-- Claim C5: leaving the financial step fails whenever tuition_fee is not
positive, whenever amount_requested is not positive, and whenever
amount_requested exceeds tuition_fee; when amount_requested is below ten
percent of tuition_fee the validation does not proceed unless the low-amount
confirmation is accepted, and with that confirmation accepted (and the income
check passing) it proceeds. -/
theorem C5_financial_step_errors (annualIncome tuitionFee amountRequested : ℚ)
    (confirmLowAmount confirmHighIncome : Bool) :
    (tuitionFee ≤ 0 →
      validateFinancialFields annualIncome tuitionFee amountRequested
        confirmLowAmount confirmHighIncome ≠ FinResult.ok) ∧
    (amountRequested ≤ 0 →
      validateFinancialFields annualIncome tuitionFee amountRequested
        confirmLowAmount confirmHighIncome ≠ FinResult.ok) ∧
    (tuitionFee < amountRequested →
      validateFinancialFields annualIncome tuitionFee amountRequested
        confirmLowAmount confirmHighIncome ≠ FinResult.ok) ∧
    (amountRequested < tuitionFee * (1 / 10) → confirmLowAmount = false →
      validateFinancialFields annualIncome tuitionFee amountRequested
        confirmLowAmount confirmHighIncome ≠ FinResult.ok) ∧
    (0 < amountRequested → amountRequested < tuitionFee * (1 / 10) →
      confirmLowAmount = true → annualIncome ≤ tuitionFee * 10 →
      validateFinancialFields annualIncome tuitionFee amountRequested
        confirmLowAmount confirmHighIncome = FinResult.ok) := by
  refine ⟨?_, ?_, ?_, ?_, ?_⟩
  · intro ht
    unfold validateFinancialFields
    rw [if_pos ht]
    simp
  · intro ha
    by_cases h1 : tuitionFee ≤ 0
    · unfold validateFinancialFields
      rw [if_pos h1]
      simp
    · unfold validateFinancialFields
      rw [if_neg h1, if_pos ha]
      simp
  · intro hlt
    obtain ⟨r, hr⟩ := (C1_amount_vs_tuition annualIncome tuitionFee amountRequested
      confirmLowAmount confirmHighIncome).1 hlt
    simp [hr]
  · intro hlow hcl
    subst hcl
    by_cases h1 : tuitionFee ≤ 0
    · unfold validateFinancialFields
      rw [if_pos h1]
      simp
    · push_neg at h1
      by_cases h2 : amountRequested ≤ 0
      · unfold validateFinancialFields
        rw [if_neg (by push_neg; linarith), if_pos h2]
        simp
      · push_neg at h2
        unfold validateFinancialFields
        rw [if_neg (by push_neg; linarith), if_neg (by push_neg; linarith),
          if_neg (by push_neg; linarith), if_pos hlow]
        simp
  · intro hpos hlow hcl hinc
    subst hcl
    have ht : 0 < tuitionFee := by linarith
    unfold validateFinancialFields incomeCheck
    rw [if_neg (by push_neg; linarith), if_neg (by push_neg; linarith),
      if_neg (by push_neg; linarith), if_pos hlow, if_pos rfl,
      if_neg (by push_neg; linarith)]

/-- Concrete instantiations of C5: zero tuition fails, zero amount fails,
amount above tuition fails, a below-ten-percent amount with the confirmation
declined fails, and the same amount with the confirmation accepted passes. -/
theorem C5_financial_step_errors_witness :
    validateFinancialFields 0 0 500 true true ≠ FinResult.ok ∧
    validateFinancialFields 0 10000 0 true true ≠ FinResult.ok ∧
    validateFinancialFields 0 10000 15000 true true ≠ FinResult.ok ∧
    validateFinancialFields 0 10000 500 false false ≠ FinResult.ok ∧
    validateFinancialFields 0 10000 500 true false = FinResult.ok := by
  refine ⟨?_, ?_, ?_, ?_, ?_⟩
  · exact (C5_financial_step_errors 0 0 500 true true).1 (by norm_num)
  · exact (C5_financial_step_errors 0 10000 0 true true).2.1 (by norm_num)
  · exact (C5_financial_step_errors 0 10000 15000 true true).2.2.1 (by norm_num)
  · exact (C5_financial_step_errors 0 10000 500 false false).2.2.2.1 (by norm_num) rfl
  · exact (C5_financial_step_errors 0 10000 500 true false).2.2.2.2 (by norm_num)
      (by norm_num) rfl (by norm_num)

/-- Claim C7 as stated is false: with amount 5000, tuition 10000 and annual
income 200000, the income exceeds ten times the tuition (100000), so the
validation demands the high-income interactive confirmation; with no
confirmation accepted the validation does not pass. -/
theorem C7_income_confirmation_counterexample :
    validateFinancialFields 200000 10000 5000 false false
      = FinResult.declined FinConfirm.highIncome ∧
    validateFinancialFields 200000 10000 5000 false false ≠ FinResult.ok := by
  constructor <;> norm_num [validateFinancialFields, incomeCheck] <;> decide

/-- Claim C7 amended: for amount 5000, tuition 10000 and income 200000 the
validation requires exactly the high-income confirmation (income 200000 is
greater than ten times tuition, 100000); it passes once that confirmation is
accepted, and the low-amount confirmation plays no role since 5000 is at least
ten percent of 10000. -/
theorem C7_income_confirmation :
    validateFinancialFields 200000 10000 5000 false true = FinResult.ok ∧
    validateFinancialFields 200000 10000 5000 true false
      = FinResult.declined FinConfirm.highIncome := by
  constructor <;> norm_num [validateFinancialFields, incomeCheck]

/-- State touched by the blur handler of the amount_requested field: the
string value of the field (none models the empty string) and the two message
banners. -/
structure AmountBlurState where
  amountValue : Option ℚ
  errorShown : Bool
  successShown : Bool
deriving DecidableEq, Repr

/-- parseFloat of a field value with the JS default: an empty value parses
to 0 (the sources read parseFloat of value-or-zero). -/
def parsedOrZero : Option ℚ → ℚ
  | none => 0
  | some v => v

/-- The blur listener on amount_requested (src/static/app.js lines 321-334,
src/staticfiles/app.js lines 271-284, src/unnamed/part_000 lines 251-264):
when the parsed amount exceeds the parsed tuition fee and the tuition fee is
positive, it shows an error and clears the field value; otherwise it clears
both banners and leaves the field alone. -/
def amountRequestedBlur (tuitionValue : Option ℚ) (st : AmountBlurState) : AmountBlurState :=
  let tuitionFee := parsedOrZero tuitionValue
  let amountRequested := parsedOrZero st.amountValue
  if amountRequested > tuitionFee ∧ tuitionFee > 0 then
    { amountValue := none, errorShown := true, successShown := false }
  else
    { st with errorShown := false, successShown := false }

/-- Claim C10: on blur of amount_requested, if the parsed value exceeds the
tuition fee and the tuition fee is positive, the handler shows an error and
destructively resets the field to the empty value; otherwise it clears the
message banners and leaves the field value unchanged. -/
theorem C10_amount_blur (tuitionValue : Option ℚ) (st : AmountBlurState) :
    (parsedOrZero tuitionValue < parsedOrZero st.amountValue →
      0 < parsedOrZero tuitionValue →
      amountRequestedBlur tuitionValue st =
        { amountValue := none, errorShown := true, successShown := false }) ∧
    (¬ (parsedOrZero tuitionValue < parsedOrZero st.amountValue ∧
        0 < parsedOrZero tuitionValue) →
      (amountRequestedBlur tuitionValue st).amountValue = st.amountValue ∧
      (amountRequestedBlur tuitionValue st).errorShown = false ∧
      (amountRequestedBlur tuitionValue st).successShown = false) := by
  constructor
  · intro hgt hpos
    unfold amountRequestedBlur
    rw [if_pos ⟨hgt, hpos⟩]
  · intro hn
    unfold amountRequestedBlur
    rw [if_neg hn]
    exact ⟨rfl, rfl, rfl⟩

/-- Concrete instantiation of C10: tuition 10000 and amount 15000 blur to an
emptied field with the error banner shown. -/
theorem C10_amount_blur_witness :
    amountRequestedBlur (some 10000)
      { amountValue := some 15000, errorShown := false, successShown := true } =
      { amountValue := none, errorShown := true, successShown := false } := by
  exact (C10_amount_blur (some 10000)
    { amountValue := some 15000, errorShown := false, successShown := true }).1
    (by norm_num [parsedOrZero]) (by norm_num [parsedOrZero])

/-- The value of a radio answer as the conditional logic sees it: the string
value True, the string value False, or no option checked at all
(getRadioValue returns null). -/
inductive RadioVal
  | vTrue
  | vFalse
  | unset
deriving DecidableEq, Repr

/-- The comparison getRadioValue(name) equal to the string True used by
handleConditionalFields. -/
def RadioVal.isTrue : RadioVal → Bool
  | RadioVal.vTrue => true
  | _ => false

/-- The five radio answers handleConditionalFields reads
(src/staticfiles/app.js lines 87-93). -/
structure RadioState where
  orphan : RadioVal
  disability : RadioVal
  previousBursary : RadioVal
  bothParentsAlive : RadioVal
  singleParent : RadioVal
deriving DecidableEq, Repr

/-- Visibility of the five conditional groups after a recomputation. -/
structure Visibility where
  orphanNote : Bool
  disabilityDetails : Bool
  previousBursaryDetails : Bool
  previousBursaryDetailsContinued : Bool
  providerNote : Bool
deriving DecidableEq, Repr

/-- handleConditionalFields from src/staticfiles/app.js lines 87-103: each
group becomes visible exactly per its boolean expression over the radio
answers; showHideConditional then toggles the show class accordingly. -/
def handleConditionalFields (r : RadioState) : Visibility :=
  let isOrphan := r.orphan.isTrue
  let hasDisability := r.disability.isTrue
  let previousBursary := r.previousBursary.isTrue
  let bothParentsAlive := r.bothParentsAlive.isTrue
  let singleParent := r.singleParent.isTrue
  { orphanNote := isOrphan
    disabilityDetails := hasDisability
    previousBursaryDetails := previousBursary
    previousBursaryDetailsContinued := previousBursary
    providerNote := isOrphan || !bothParentsAlive || singleParent }

/-- The provider-note visibility rule exactly as the spec declares it:
visible iff orphan is True or bothParentsAlive is False or singleParent is
True.  Stated from the spec wording to compare against the code. -/
def specProviderNoteVisible (r : RadioState) : Bool :=
  (r.orphan == RadioVal.vTrue) || (r.bothParentsAlive == RadioVal.vFalse) ||
    (r.singleParent == RadioVal.vTrue)

/-- Claim C4: after recomputation every conditional group is visible exactly
per its declared boolean expression; providerNote matches the spec rule for
every assignment in which bothParentsAlive carries a value (when it is unset
the code treats it as not-True, which the hypothesis excludes); and a group
never changes visibility when a radio outside its expression changes. -/
theorem C4_conditional_visibility (r : RadioState) :
    ((handleConditionalFields r).orphanNote = (r.orphan == RadioVal.vTrue)) ∧
    ((handleConditionalFields r).disabilityDetails = (r.disability == RadioVal.vTrue)) ∧
    ((handleConditionalFields r).previousBursaryDetails
      = (r.previousBursary == RadioVal.vTrue)) ∧
    ((handleConditionalFields r).previousBursaryDetailsContinued
      = (r.previousBursary == RadioVal.vTrue)) ∧
    (r.bothParentsAlive ≠ RadioVal.unset →
      (handleConditionalFields r).providerNote = specProviderNoteVisible r) ∧
    (∀ r2 : RadioState, r2.orphan = r.orphan →
      (handleConditionalFields r2).orphanNote = (handleConditionalFields r).orphanNote) ∧
    (∀ r2 : RadioState, r2.disability = r.disability →
      (handleConditionalFields r2).disabilityDetails
        = (handleConditionalFields r).disabilityDetails) ∧
    (∀ r2 : RadioState, r2.previousBursary = r.previousBursary →
      (handleConditionalFields r2).previousBursaryDetails
          = (handleConditionalFields r).previousBursaryDetails ∧
        (handleConditionalFields r2).previousBursaryDetailsContinued
          = (handleConditionalFields r).previousBursaryDetailsContinued) ∧
    (∀ r2 : RadioState, r2.orphan = r.orphan → r2.bothParentsAlive = r.bothParentsAlive →
      r2.singleParent = r.singleParent →
      (handleConditionalFields r2).providerNote
        = (handleConditionalFields r).providerNote) := by
  obtain ⟨o, d, p, b, sp⟩ := r
  refine ⟨?_, ?_, ?_, ?_, ?_, ?_, ?_, ?_, ?_⟩
  · cases o <;> rfl
  · cases d <;> rfl
  · cases p <;> rfl
  · cases p <;> rfl
  · intro hset
    cases b <;> cases o <;> cases sp <;> simp_all [handleConditionalFields,
      specProviderNoteVisible, RadioVal.isTrue]
  · intro r2 h
    simp [handleConditionalFields, h]
  · intro r2 h
    simp [handleConditionalFields, h]
  · intro r2 h
    constructor <;> simp [handleConditionalFields, h]
  · intro r2 h1 h2 h3
    simp [handleConditionalFields, h1, h2, h3]

/-- Concrete instantiation of C4: a single parent with both parents alive and
no other flag set gets the provider note shown, per the spec expression. -/
theorem C4_conditional_visibility_witness :
    (handleConditionalFields
      { orphan := RadioVal.vFalse, disability := RadioVal.vFalse,
        previousBursary := RadioVal.vFalse, bothParentsAlive := RadioVal.vTrue,
        singleParent := RadioVal.vTrue }).providerNote
      = specProviderNoteVisible
        { orphan := RadioVal.vFalse, disability := RadioVal.vFalse,
          previousBursary := RadioVal.vFalse, bothParentsAlive := RadioVal.vTrue,
          singleParent := RadioVal.vTrue } := by
  exact (C4_conditional_visibility
    { orphan := RadioVal.vFalse, disability := RadioVal.vFalse,
      previousBursary := RadioVal.vFalse, bothParentsAlive := RadioVal.vTrue,
      singleParent := RadioVal.vTrue }).2.2.2.2.1 (by decide)

/-- A named radio group of the form: the option values that exist in the
document and which value, if any, is currently checked. -/
structure RadioGroup where
  options : List String
  checked : Option String
deriving DecidableEq, Repr

/-- setRadioDefault from src/staticfiles/app.js lines 55-60 (identical in
src/static/app.js lines 68-73): the default option is checked only when the
option exists in the group and no option of the group is checked yet. -/
def setRadioDefault (g : RadioGroup) (value : String) : RadioGroup :=
  if value ∈ g.options ∧ g.checked = none then { g with checked := some value }
  else g

/-- Claim C8: initialization checks the default option iff no option of the
group is already checked; running it on a group with a checked option leaves
the group unchanged, and running it twice equals running it once (idempotent
default-setting). -/
theorem C8_radio_default_idempotent (g : RadioGroup) (value : String) :
    (value ∈ g.options → g.checked = none →
      (setRadioDefault g value).checked = some value) ∧
    (g.checked ≠ none → setRadioDefault g value = g) ∧
    (setRadioDefault (setRadioDefault g value) value = setRadioDefault g value) := by
  refine ⟨?_, ?_, ?_⟩
  · intro hmem hnone
    unfold setRadioDefault
    rw [if_pos ⟨hmem, hnone⟩]
  · intro hchecked
    unfold setRadioDefault
    rw [if_neg (by simp [hchecked])]
  · by_cases h : value ∈ g.options ∧ g.checked = none
    · unfold setRadioDefault
      rw [if_pos h]
      rw [if_neg (by simp)]
    · unfold setRadioDefault
      rw [if_neg h, if_neg h]

/-- Concrete instantiation of C8: the orphan group with nothing checked gets
its default False checked, and a group with True already checked is left
unchanged. -/
theorem C8_radio_default_idempotent_witness :
    (setRadioDefault { options := ["True", "False"], checked := none } "False").checked
      = some "False" ∧
    setRadioDefault { options := ["True", "False"], checked := some "True" } "False"
      = { options := ["True", "False"], checked := some "True" } := by
  constructor
  · exact (C8_radio_default_idempotent
      { options := ["True", "False"], checked := none } "False").1 (by decide) rfl
  · exact (C8_radio_default_idempotent
      { options := ["True", "False"], checked := some "True" } "False").2.1 (by decide)

/-- A required element of a section, as validateStep inspects it: a file input
with its selected-file count, a select with its value, or a text-like control
with its value (src/staticfiles/app.js lines 185-200). -/
inductive ReqFieldKind
  | file (fileCount : Nat)
  | selectEl (value : String)
  | textual (value : String)
deriving DecidableEq, Repr

/-- An element carrying the required attribute inside a section, together with
whether its closest .conditional ancestor is currently hidden (present but
without the show class).  Elements outside any conditional container have
inHiddenConditional false. -/
structure ReqField where
  kind : ReqFieldKind
  inHiddenConditional : Bool
deriving DecidableEq, Repr

/-- The per-kind emptiness test of validateStep: a file input fails with no
file, a select fails on the empty value, a text-like control fails when its
trimmed value is empty. -/
def reqFieldFails (f : ReqField) : Bool :=
  match f.kind with
  | ReqFieldKind.file n => n == 0
  | ReqFieldKind.selectEl v => v == ""
  | ReqFieldKind.textual v => v.trim == ""

/-- The first element at which the required-fields loop of validateStep
(src/staticfiles/app.js lines 178-201) stops with an error: elements inside a
hidden conditional container are skipped. -/
def firstBlockingField (fs : List ReqField) : Option ReqField :=
  fs.find? (fun f => !f.inHiddenConditional && reqFieldFails f)

/-- A radio group of a section as the second validateStep loop sees it
(src/staticfiles/app.js lines 204-224). -/
structure RadioCheckGroup where
  labelRequired : Bool
  hasName : Bool
  visible : Bool
  checked : Bool
deriving DecidableEq, Repr

/-- The radio-group loop flags a group when its label is marked required, it
has a named radio, it is visible (offsetParent not null) and no option is
checked. -/
def radioGroupFails (g : RadioCheckGroup) : Bool :=
  g.labelRequired && g.hasName && g.visible && !g.checked

/-- The relevant content of one form section for validateStep. -/
structure StepSection where
  reqFields : List ReqField
  radioGroups : List RadioCheckGroup
deriving DecidableEq, Repr

/-- validateStep from src/staticfiles/app.js lines 171-228: true iff neither
loop finds a blocking element. -/
def validateStepCheck (sec : StepSection) : Bool :=
  (firstBlockingField sec.reqFields).isNone &&
    (sec.radioGroups.find? radioGroupFails).isNone

/-- Dropping the fields that sit in hidden conditional containers does not
change which field the required-fields loop stops at. -/
theorem firstBlockingField_filter_hidden (fs : List ReqField) :
    firstBlockingField (fs.filter (fun f => !f.inHiddenConditional))
      = firstBlockingField fs := by
  induction fs with
  | nil => rfl
  | cons f fs ih =>
    by_cases h : f.inHiddenConditional
    · simp only [firstBlockingField, List.filter_cons, h, Bool.not_true, if_neg] at ih ⊢
      rw [List.find?_cons_of_neg _ (by simp [h])]
      simpa [firstBlockingField] using ih
    · by_cases hf : reqFieldFails f
      · simp only [firstBlockingField, List.filter_cons, h, Bool.not_false, if_pos]
        rw [List.find?_cons_of_pos _ (by simp [h, hf]),
          List.find?_cons_of_pos _ (by simp [h, hf])]
      · simp only [firstBlockingField, List.filter_cons, h, Bool.not_false, if_pos]
        rw [List.find?_cons_of_neg _ (by simp [h, hf]),
          List.find?_cons_of_neg _ (by simp [h, hf])]
        simpa [firstBlockingField] using ih

/-- Claim C2: a required field whose enclosing conditional group is hidden is
never the field validateStep blocks on, and the outcome of validateStep is
unchanged when all such hidden fields are removed; the final all-steps pass on
submit runs this same validateStep per step, so the property carries over. -/
theorem C2_hidden_not_blocking (fs : List ReqField) (sec : StepSection) :
    (∀ f : ReqField, firstBlockingField fs = some f → f.inHiddenConditional = false) ∧
    (validateStepCheck sec = validateStepCheck { sec with
      reqFields := sec.reqFields.filter (fun f => !f.inHiddenConditional) }) := by
  constructor
  · intro f hfind
    have hp := List.find?_some hfind
    simp only [Bool.and_eq_true, Bool.not_eq_true'] at hp
    exact hp.1
  · simp [validateStepCheck, firstBlockingField_filter_hidden]

/-- Concrete instantiation of C2: an empty required text field inside a hidden
conditional group does not block its section, while the same field shown and
outside any hidden group is the blocker (and is indeed not hidden). -/
theorem C2_hidden_not_blocking_witness :
    validateStepCheck
      { reqFields := [{ kind := ReqFieldKind.selectEl "", inHiddenConditional := true }],
        radioGroups := [] } = true ∧
    ({ kind := ReqFieldKind.selectEl "", inHiddenConditional := false } :
      ReqField).inHiddenConditional = false := by
  constructor
  · have h := (C2_hidden_not_blocking []
      { reqFields := [{ kind := ReqFieldKind.selectEl "", inHiddenConditional := true }],
        radioGroups := [] }).2
    rw [h]
    rfl
  · exact (C2_hidden_not_blocking
      [{ kind := ReqFieldKind.selectEl "", inHiddenConditional := false }]
      { reqFields := [], radioGroups := [] }).1
      { kind := ReqFieldKind.selectEl "", inHiddenConditional := false } (by decide)

/-- The concrete form has five sections, so totalSteps (sections.length)
is 5. -/
def totalSteps : Nat := 5

/-- The client state the navigation and submission handlers mutate: the
current step, the two message banners, and the submit control. -/
structure FormUIState where
  currentStep : Nat
  errorShown : Bool
  successShown : Bool
  submitDisabled : Bool
  submitLabel : String
  submitted : Bool
deriving DecidableEq, Repr

/-- State on page load: step 1, no banners, submit control enabled with its
initial label, nothing submitted. -/
def initialFormState : FormUIState :=
  { currentStep := 1, errorShown := false, successShown := false,
    submitDisabled := false, submitLabel := "Submit Application",
    submitted := false }

/-- goToStep from src/staticfiles/app.js lines 141-158.  A forward move
(target beyond the current step) returns early when validateStep of the
current step fails, or when leaving step 2 with validateFinancialFields
failing; otherwise the step is set and the banners are cleared.  stepValid
abstracts the outcome of validateStep on each step for the current form
contents, finValid the outcome of the financial check. -/
def goToStep (stepValid : Nat → Bool) (finValid : Bool) (st : FormUIState)
    (n : Nat) : FormUIState :=
  if st.currentStep < n ∧
      (stepValid st.currentStep = false ∨ (st.currentStep = 2 ∧ finValid = false)) then
    st
  else
    { st with currentStep := n, errorShown := false, successShown := false }

/-- Claim C3: forward navigation from a step whose validation fails leaves the
state untouched, and backward navigation (target at most the current step)
always lands on the target step. -/
theorem C3_navigation_gating (stepValid : Nat → Bool) (finValid : Bool)
    (st : FormUIState) (n : Nat) :
    (st.currentStep < n → stepValid st.currentStep = false →
      goToStep stepValid finValid st n = st) ∧
    (n ≤ st.currentStep → (goToStep stepValid finValid st n).currentStep = n) := by
  constructor
  · intro hfwd hinvalid
    unfold goToStep
    rw [if_pos ⟨hfwd, Or.inl hinvalid⟩]
  · intro hback
    unfold goToStep
    rw [if_neg (fun hc => absurd hc.1 (by omega))]

/-- Concrete instantiation of C3: with step 1 invalid the move from 1 to 2 is
refused, and a backward move from step 3 to step 1 always succeeds. -/
theorem C3_navigation_gating_witness :
    goToStep (fun _ => false) true initialFormState 2 = initialFormState ∧
    (goToStep (fun _ => true) true
      { initialFormState with currentStep := 3 } 1).currentStep = 1 := by
  constructor
  · exact (C3_navigation_gating (fun _ => false) true initialFormState 2).1
      (by norm_num [initialFormState]) rfl
  · exact (C3_navigation_gating (fun _ => true) true
      { initialFormState with currentStep := 3 } 1).2 (by norm_num [initialFormState])

/-- The discrete events that change currentStep: the eight navigation buttons
(each bound to a constant target) and the Enter-key shortcut, which advances
one step only under the guard currentStep below totalSteps. -/
inductive NavEvent
  | toStep2
  | backTo1
  | toStep3
  | backTo2
  | toStep4
  | backTo3
  | toStep5
  | backTo4
  | enterKey
deriving DecidableEq, Repr

/-- Dispatch of one event to goToStep, mirroring the click listeners
(src/staticfiles/app.js lines 161-168) and the Enter keydown handler
(src/app.js lines 277-282, src/unnamed/part_000 lines 343-352). -/
def handleNavEvent (stepValid : Nat → Bool) (finValid : Bool) (st : FormUIState) :
    NavEvent → FormUIState
  | NavEvent.toStep2 => goToStep stepValid finValid st 2
  | NavEvent.backTo1 => goToStep stepValid finValid st 1
  | NavEvent.toStep3 => goToStep stepValid finValid st 3
  | NavEvent.backTo2 => goToStep stepValid finValid st 2
  | NavEvent.toStep4 => goToStep stepValid finValid st 4
  | NavEvent.backTo3 => goToStep stepValid finValid st 3
  | NavEvent.toStep5 => goToStep stepValid finValid st 5
  | NavEvent.backTo4 => goToStep stepValid finValid st 4
  | NavEvent.enterKey =>
      if st.currentStep < totalSteps then goToStep stepValid finValid st (st.currentStep + 1)
      else st

/-- A run of the wizard from page load: each event comes with the validation
outcomes the form contents produce at that moment. -/
def runNavEvents (evs : List ((Nat → Bool) × Bool × NavEvent)) : FormUIState :=
  evs.foldl (fun st e => handleNavEvent e.1 e.2.1 st e.2.2) initialFormState

/-- goToStep either reaches its target step or leaves the step unchanged. -/
theorem goToStep_currentStep_or (stepValid : Nat → Bool) (finValid : Bool)
    (st : FormUIState) (n : Nat) :
    (goToStep stepValid finValid st n).currentStep = n ∨
      (goToStep stepValid finValid st n).currentStep = st.currentStep := by
  unfold goToStep
  split_ifs with h
  · exact Or.inr rfl
  · exact Or.inl rfl

/-- One event keeps currentStep inside the valid range. -/
theorem handleNavEvent_bounds (stepValid : Nat → Bool) (finValid : Bool)
    (st : FormUIState) (e : NavEvent) (h1 : 1 ≤ st.currentStep)
    (h2 : st.currentStep ≤ totalSteps) :
    1 ≤ (handleNavEvent stepValid finValid st e).currentStep ∧
      (handleNavEvent stepValid finValid st e).currentStep ≤ totalSteps := by
  have key : ∀ n, 1 ≤ n → n ≤ totalSteps →
      1 ≤ (goToStep stepValid finValid st n).currentStep ∧
        (goToStep stepValid finValid st n).currentStep ≤ totalSteps := by
    intro n hn1 hn2
    rcases goToStep_currentStep_or stepValid finValid st n with h | h <;> rw [h] <;>
      exact ⟨by omega, by omega⟩
  cases e with
  | toStep2 => exact key 2 (by norm_num) (by norm_num [totalSteps])
  | backTo1 => exact key 1 (by norm_num) (by norm_num [totalSteps])
  | toStep3 => exact key 3 (by norm_num) (by norm_num [totalSteps])
  | backTo2 => exact key 2 (by norm_num) (by norm_num [totalSteps])
  | toStep4 => exact key 4 (by norm_num) (by norm_num [totalSteps])
  | backTo3 => exact key 3 (by norm_num) (by norm_num [totalSteps])
  | toStep5 => exact key 5 (by norm_num) (by norm_num [totalSteps])
  | backTo4 => exact key 4 (by norm_num) (by norm_num [totalSteps])
  | enterKey =>
      by_cases hg : st.currentStep < totalSteps
      · simp only [handleNavEvent, if_pos hg]
        exact key (st.currentStep + 1) (by omega) (by omega)
      · simp only [handleNavEvent, if_neg hg]
        exact ⟨h1, h2⟩

/-- The range invariant is preserved along any event list. -/
theorem foldl_nav_bounds (evs : List ((Nat → Bool) × Bool × NavEvent)) :
    ∀ st : FormUIState, 1 ≤ st.currentStep → st.currentStep ≤ totalSteps →
      1 ≤ (evs.foldl (fun st e => handleNavEvent e.1 e.2.1 st e.2.2) st).currentStep ∧
        (evs.foldl (fun st e => handleNavEvent e.1 e.2.1 st e.2.2) st).currentStep
          ≤ totalSteps := by
  induction evs with
  | nil => intro st h1 h2; exact ⟨h1, h2⟩
  | cons e evs ih =>
      intro st h1 h2
      have hb := handleNavEvent_bounds e.1 e.2.1 st e.2.2 h1 h2
      exact ih _ hb.1 hb.2

/-- Claim C9: after any sequence of navigation-button and Enter-key events
from page load, currentStep stays in the range from 1 to totalSteps. -/
theorem C9_current_step_bounds (evs : List ((Nat → Bool) × Bool × NavEvent)) :
    1 ≤ (runNavEvents evs).currentStep ∧
      (runNavEvents evs).currentStep ≤ totalSteps :=
  foldl_nav_bounds evs initialFormState (by norm_num [initialFormState])
    (by norm_num [initialFormState, totalSteps])

/-- The first step, in order 1 to totalSteps, on which validateStep fails
during the final submit pass (src/staticfiles/app.js lines 321-329). -/
def firstFailingStep (stepValid : Nat → Bool) : Option Nat :=
  (List.range' 1 totalSteps).find? (fun s => !stepValid s)

/-- The submit listener from src/staticfiles/app.js lines 315-339: it
re-validates steps 1 to totalSteps in order; at the first failure it calls
goToStep to that step, shows the aggregate error banner, re-enables and
relabels the submit control and returns without submitting; with every step
passing it disables and relabels the control and submits the form.  The
submitted flag records whether this invocation reached the final
form.submit() call. -/
def submitHandler (stepValid : Nat → Bool) (finValid : Bool)
    (st : FormUIState) : FormUIState :=
  match firstFailingStep stepValid with
  | some k =>
      let navigated := goToStep stepValid finValid st k
      { navigated with
        errorShown := true, successShown := false,
        submitDisabled := false, submitLabel := "Submit Application",
        submitted := false }
  | none =>
      { st with
        errorShown := false, successShown := false,
        submitDisabled := true, submitLabel := "Submitting...",
        submitted := true }

/-- Claim C6 as stated is false on one point: the handler does not always land
on the first failing step.  Concretely, submitting while on step 2 with the
financial check failing and step 3 the first failing step: goToStep(3) is a
forward move and is blocked by the step-2 financial gate inside goToStep, so
currentStep stays 2 instead of becoming 3. -/
theorem C6_submit_navigation_counterexample :
    firstFailingStep (fun s => s != 3) = some 3 ∧
    (submitHandler (fun s => s != 3) false
      { currentStep := 2, errorShown := false, successShown := false,
        submitDisabled := false, submitLabel := "Submit Application",
        submitted := false }).currentStep = 2 := by
  constructor <;> rfl

/-- Claim C6 amended: on submit the steps are re-validated in order 1 to
totalSteps; at the first failing step the handler shows the aggregate error
banner, re-enables the submit control and restores its label, does not
submit, and moves currentStep exactly as goToStep does, which reaches the
failing step whenever that step is at or before the current one (backward
navigation); only when every step passes is the control disabled, relabeled,
and the form submitted. -/
theorem C6_submit_final_pass (stepValid : Nat → Bool) (finValid : Bool)
    (st : FormUIState) :
    (∀ k, firstFailingStep stepValid = some k →
      (submitHandler stepValid finValid st).submitted = false ∧
      (submitHandler stepValid finValid st).errorShown = true ∧
      (submitHandler stepValid finValid st).submitDisabled = false ∧
      (submitHandler stepValid finValid st).submitLabel = "Submit Application" ∧
      (submitHandler stepValid finValid st).currentStep
        = (goToStep stepValid finValid st k).currentStep ∧
      (k ≤ st.currentStep → (submitHandler stepValid finValid st).currentStep = k)) ∧
    (firstFailingStep stepValid = none →
      (submitHandler stepValid finValid st).submitDisabled = true ∧
      (submitHandler stepValid finValid st).submitLabel = "Submitting..." ∧
      (submitHandler stepValid finValid st).submitted = true ∧
      (submitHandler stepValid finValid st).currentStep = st.currentStep) := by
  constructor
  · intro k hk
    unfold submitHandler
    rw [hk]
    refine ⟨rfl, rfl, rfl, rfl, rfl, ?_⟩
    intro hle
    show (goToStep stepValid finValid st k).currentStep = k
    unfold goToStep
    rw [if_neg (fun hc => absurd hc.1 (by omega))]
  · intro hnone
    unfold submitHandler
    rw [hnone]
    exact ⟨rfl, rfl, rfl, rfl⟩

/-- Concrete instantiation of C6 amended: submitting from step 5 with step 1
failing navigates back to step 1 without submitting; with every step passing
the control is disabled and the form submitted. -/
theorem C6_submit_final_pass_witness :
    (submitHandler (fun s => s != 1) false
      { currentStep := 5, errorShown := false, successShown := false,
        submitDisabled := true, submitLabel := "Submitting...",
        submitted := false }).currentStep = 1 ∧
    (submitHandler (fun s => s != 1) false
      { currentStep := 5, errorShown := false, successShown := false,
        submitDisabled := true, submitLabel := "Submitting...",
        submitted := false }).submitted = false ∧
    (submitHandler (fun _ => true) true initialFormState).submitted = true := by
  refine ⟨?_, ?_, ?_⟩
  · exact ((C6_submit_final_pass (fun s => s != 1) false
      { currentStep := 5, errorShown := false, successShown := false,
        submitDisabled := true, submitLabel := "Submitting...",
        submitted := false }).1 1 rfl).2.2.2.2.2 (by norm_num)
  · exact ((C6_submit_final_pass (fun s => s != 1) false
      { currentStep := 5, errorShown := false, successShown := false,
        submitDisabled := true, submitLabel := "Submitting...",
        submitted := false }).1 1 rfl).1
  · exact ((C6_submit_final_pass (fun _ => true) true initialFormState).2 rfl).2.2.1

end BusaryForm
